import Mathlib

/-!
Verification development for the security-policy attack-path analyzer.

Shallow embedding of the analyzer core:
* `src/analysis/condition_evaluator.py` (`ConditionEvaluator`)
* `src/analysis/find_paths.py` (`AttackPathAnalyzer`)
* `src/graph/build_graph.py` (`build_graph`)
* `src/threat_scoring/threat_scorer.py` (`PathThreatScorer`)
* `src/verification/z3_verifier.py` (`Z3Verifier`, `PolicyToZ3Converter`)

Python dynamic values are embedded as the inductive `Value` (the JSON-style
values the analyzer actually handles); Python floats are embedded as `ℚ`
(every literal the scoring code manipulates is an exactly representable
decimal); external I/O (file loading) is replaced by explicit parameters;
Python exceptions become `Option`/`Except` results.
-/

namespace AttackPath

/-- Embedding of the dynamic (JSON-style) Python values that flow through the
analyzer: `None`, booleans, integers, strings, lists and string-keyed dicts. -/
inductive Value where
  | null : Value
  | bool (b : Bool) : Value
  | int (n : Int) : Value
  | str (s : String) : Value
  | list (vs : List Value) : Value
  | dict (kvs : List (String × Value)) : Value

/-- Python truthiness (`bool(v)`): `None`, `False`, `0`, `""`, `[]`, and
empty dicts are falsy, everything else is truthy. -/
def pyTruthy : Value → Bool
  | .null => false
  | .bool b => b
  | .int n => n != 0
  | .str s => s != ""
  | .list vs => !vs.isEmpty
  | .dict kvs => !kvs.isEmpty

/-- Whether a value is a Python mapping (`isinstance(v, dict)`). -/
def Value.isDict : Value → Bool
  | .dict _ => true
  | _ => false

mutual

/-- Python `str(v)` for the embedded values (`str()` of containers uses the
element `repr`; string formatting details of floats are not needed because the
analyzer only ever stringifies JSON-style scalars and containers). -/
def pyStr : Value → String
  | .null => "None"
  | .bool b => if b then "True" else "False"
  | .int n => toString n
  | .str s => s
  | .list vs => "[" ++ pyReprList vs ++ "]"
  | .dict kvs => "\x7b" ++ pyReprDict kvs ++ "\x7d"

/-- Python `repr(v)` (strings gain quotes, as inside container `str()`). -/
def pyReprOf : Value → String
  | .null => "None"
  | .bool b => if b then "True" else "False"
  | .int n => toString n
  | .str s => "\x27" ++ s ++ "\x27"
  | .list vs => "[" ++ pyReprList vs ++ "]"
  | .dict kvs => "\x7b" ++ pyReprDict kvs ++ "\x7d"

/-- Comma-separated element reprs of a Python list. -/
def pyReprList : List Value → String
  | [] => ""
  | [v] => pyReprOf v
  | v :: vs => pyReprOf v ++ ", " ++ pyReprList vs

/-- Comma-separated `key: value` reprs of a Python dict. -/
def pyReprDict : List (String × Value) → String
  | [] => ""
  | [(k, v)] => "\x27" ++ k ++ "\x27: " ++ pyReprOf v
  | (k, v) :: kvs => "\x27" ++ k ++ "\x27: " ++ pyReprOf v ++ ", " ++ pyReprDict kvs

end

/-- Python `d.get(k)` on a string-keyed dict: `some` value or `none`. -/
def dictGet (d : List (String × Value)) (k : String) : Option Value :=
  (d.find? (fun kv => kv.1 == k)).map (fun kv => kv.2)

/-- Python `str.split(sep)` on a character list: splitting the empty string
yields `[[]]`, and every separator occurrence starts a new chunk. -/
def pySplitChar (sep : Char) : List Char → List (List Char)
  | [] => [[]]
  | c :: cs =>
    if c = sep then [] :: pySplitChar sep cs
    else
      match pySplitChar sep cs with
      | [] => [[c]]
      | p :: ps => (c :: p) :: ps

/-- Python `s.split(sep)` for a one-character separator. -/
def pySplit (s : String) (sep : Char) : List String :=
  (pySplitChar sep s.data).map (fun cs => String.mk cs)

/-- Digit-string parser: `some n` iff the characters are a non-empty run of
decimal digits. -/
def parseNatDigits : List Char → Option Nat
  | [] => none
  | cs =>
    if cs.all (fun c => c.isDigit) then
      some (cs.foldl (fun n c => n * 10 + (c.toNat - 48)) 0)
    else none

/-- Plain decimal parser for Python `float(s)` (sign, digits, optional single
decimal point; scientific notation and `inf`/`nan` are not exercised by the
analyzer and are not modelled). -/
def pyFloatCore (cs : List Char) : Option ℚ :=
  match pySplitChar '.' cs with
  | [intPart] => (parseNatDigits intPart).map (fun n => (n : ℚ))
  | [intPart, fracPart] =>
    if intPart.isEmpty && fracPart.isEmpty then none
    else
      let ip : Option Nat := if intPart.isEmpty then some 0 else parseNatDigits intPart
      let fp : Option Nat := if fracPart.isEmpty then some 0 else parseNatDigits fracPart
      match ip, fp with
      | some i, some f => some ((i : ℚ) + (f : ℚ) / ((10 : ℚ) ^ fracPart.length))
      | _, _ => none
  | _ => none

/-- Python `float(s)` on a string. -/
def pyFloatStr (s : String) : Option ℚ :=
  match s.data with
  | '+' :: rest => pyFloatCore rest
  | '-' :: rest => (pyFloatCore rest).map (fun q => -q)
  | cs => pyFloatCore cs

/-- Python `float(v)`: numbers pass through, booleans become 0/1, strings are
parsed, everything else raises (`none`). -/
def pyFloat : Value → Option ℚ
  | .int n => some (n : ℚ)
  | .bool b => some (if b then 1 else 0)
  | .str s => pyFloatStr s
  | _ => none

/-- Python `int(s)` for the z3 converter (sign plus decimal digits). -/
def pyIntStr (s : String) : Option Int :=
  match s.data with
  | '+' :: rest => (parseNatDigits rest).map (fun n => (n : Int))
  | '-' :: rest => (parseNatDigits rest).map (fun n => -(n : Int))
  | cs => (parseNatDigits cs).map (fun n => (n : Int))

/-- One dotted-quad octet for `ipaddress.ip_address`: decimal, ≤ 255, no
leading zeros. -/
def parseOctet (cs : List Char) : Option Nat :=
  if cs.isEmpty then none
  else if !cs.all (fun c => c.isDigit) then none
  else if cs.length > 1 && cs.head? == some '0' then none
  else
    match parseNatDigits cs with
    | some n => if n ≤ 255 then some n else none
    | none => none

/-- Model of `ipaddress.ip_address(s)` for the IPv4 dotted-quad form the
analyzer exercises (result is the 32-bit address value; parse failure is
`none`, standing for the library's `ValueError`). -/
def parseIpv4 (s : String) : Option Nat :=
  match (pySplitChar '.' s.data).map parseOctet with
  | [some a, some b, some c, some d] => some (((a * 256 + b) * 256 + c) * 256 + d)
  | _ => none

/-- Model of `ipaddress.ip_network(s, strict=False)`: address with prefix
length, host bits masked off. Returns `(network-address, prefix-length)`. -/
def parseIpNetwork (s : String) : Option (Nat × Nat) :=
  match pySplitChar '/' s.data with
  | [ipPart, lenPart] =>
    match parseIpv4 (String.mk ipPart), parseNatDigits lenPart with
    | some ip, some p =>
      if p ≤ 32 then some ((ip / 2 ^ (32 - p)) * 2 ^ (32 - p), p) else none
    | _, _ => none
  | _ => none

/-! ### ConditionEvaluator (`src/analysis/condition_evaluator.py`) -/

/-- Python `str.lower()` (character-wise ASCII case fold, written over the
character list so that it evaluates inside the kernel). -/
def pyLower (s : String) : String := String.mk (s.data.map Char.toLower)

/-- Python `str.upper()` (character-wise, kernel-evaluable). -/
def pyUpper (s : String) : String := String.mk (s.data.map Char.toUpper)

/-- Python `sep.join(parts)` (kernel-evaluable concatenation). -/
def pyJoin (sep : String) : List String → String
  | [] => ""
  | [x] => x
  | x :: xs => x ++ sep ++ pyJoin sep xs

/-- Model of `ConditionEvaluator._string_equals`: `None` context → false, list policy
value means membership, otherwise `str()`-cast equality. -/
def stringEquals (contextVal policyVal : Value) : Bool :=
  match contextVal with
  | .null => false
  | cv =>
    match policyVal with
    | .list vs => vs.any (fun v => pyStr cv == pyStr v)
    | pv => pyStr cv == pyStr pv

/-- Model of `ConditionEvaluator._string_equals_ignore_case`: case-folded variant. -/
def stringEqualsIgnoreCase (contextVal policyVal : Value) : Bool :=
  match contextVal with
  | .null => false
  | cv =>
    match policyVal with
    | .list vs => vs.any (fun v => pyLower (pyStr cv) == pyLower (pyStr v))
    | pv => pyLower (pyStr cv) == pyLower (pyStr pv)

/-- Model of the regex produced by `_string_like`'s pattern translation
(`.`→`\.`, `*`→`.*`, `?`→`.` then anchored `re.match`): `*` matches any
sequence, `?` any single character, everything else — including the escaped
dot — literally. (Patterns containing other regex metacharacters are not
exercised by the repository and are not modelled.) -/
def globMatch : List Char → List Char → Bool
  | [], [] => true
  | [], _ :: _ => false
  | '*' :: ps, [] => globMatch ps []
  | '*' :: ps, c :: cs => globMatch ps (c :: cs) || globMatch ('*' :: ps) cs
  | '?' :: _, [] => false
  | '?' :: ps, _ :: cs => globMatch ps cs
  | _ :: _, [] => false
  | p :: ps, c :: cs => p == c && globMatch ps cs
termination_by p s => (p.length, s.length)

/-- Model of `ConditionEvaluator._string_like`: wildcard match of the context string
against one or several patterns. -/
def stringLike (contextVal policyVal : Value) : Bool :=
  match contextVal with
  | .null => false
  | cv =>
    let values := match policyVal with | .list vs => vs | v => [v]
    values.any (fun v => globMatch (pyStr v).data (pyStr cv).data)

/-- Model of the regex produced by `_arn_like`'s translation (`*`→`.*`,
`?`→`.`, no escaping of `.`): like `globMatch`, but a literal `.` in the
pattern is an unescaped regex dot and therefore matches any character. -/
def globArnMatch : List Char → List Char → Bool
  | [], [] => true
  | [], _ :: _ => false
  | '*' :: ps, [] => globArnMatch ps []
  | '*' :: ps, c :: cs => globArnMatch ps (c :: cs) || globArnMatch ('*' :: ps) cs
  | '?' :: _, [] => false
  | '?' :: ps, _ :: cs => globArnMatch ps cs
  | '.' :: _, [] => false
  | '.' :: ps, _ :: cs => globArnMatch ps cs
  | _ :: _, [] => false
  | p :: ps, c :: cs => p == c && globArnMatch ps cs
termination_by p s => (p.length, s.length)

/-- Model of `ConditionEvaluator._arn_like`. -/
def arnLike (contextVal policyVal : Value) : Bool :=
  match contextVal with
  | .null => false
  | cv =>
    let values := match policyVal with | .list vs => vs | v => [v]
    values.any (fun v => globArnMatch (pyStr v).data (pyStr cv).data)

/-- Model of `ConditionEvaluator._ip_address_match`: the context value is parsed as an
IP literal, each policy value as a CIDR block (when it contains `/`) or an
individual IP; any per-value parse failure is skipped (`except ValueError:
continue`), a context-side failure makes the whole match false. -/
def ipAddressMatch (contextVal policyVal : Value) : Bool :=
  match contextVal with
  | .null => false
  | cv =>
    match parseIpv4 (pyStr cv) with
    | none => false
    | some contextIp =>
      let values := match policyVal with | .list vs => vs | v => [v]
      values.any (fun v =>
        let s := pyStr v
        if s.data.contains '/' then
          match parseIpNetwork s with
          | some net => contextIp / 2 ^ (32 - net.2) == net.1 / 2 ^ (32 - net.2)
          | none => false
        else
          match parseIpv4 s with
          | some policyIp => contextIp == policyIp
          | none => false)

/-- Model of `ConditionEvaluator._numeric_equals`: both sides `float()`-cast;
any cast failure → false. -/
def numericEquals (contextVal policyVal : Value) : Bool :=
  match pyFloat contextVal with
  | none => false
  | some c =>
    match policyVal with
    | .list vs =>
      match vs.mapM pyFloat with
      | none => false
      | some ns => ns.any (fun x => decide (x = c))
    | pv =>
      match pyFloat pv with
      | none => false
      | some p => decide (c = p)

/-- Model of `ConditionEvaluator._numeric_greater_than` (with its `equals` flag). -/
def numericGreaterThan (contextVal policyVal : Value) (withEq : Bool) : Bool :=
  match pyFloat contextVal, pyFloat policyVal with
  | some c, some p => if withEq then decide (p ≤ c) else decide (p < c)
  | _, _ => false

/-- Model of `ConditionEvaluator._numeric_less_than` (with its `equals` flag). -/
def numericLessThan (contextVal policyVal : Value) (withEq : Bool) : Bool :=
  match pyFloat contextVal, pyFloat policyVal with
  | some c, some p => if withEq then decide (c ≤ p) else decide (c < p)
  | _, _ => false

/-- Model of `ConditionEvaluator._date_greater_than`: lexicographic comparison of the
`str()` casts. -/
def dateGreaterThan (contextVal policyVal : Value) : Bool :=
  decide (pyStr policyVal < pyStr contextVal)

/-- Model of `ConditionEvaluator._date_less_than`. -/
def dateLessThan (contextVal policyVal : Value) : Bool :=
  decide (pyStr contextVal < pyStr policyVal)

/-- Model of `ConditionEvaluator._bool_equals`: both sides normalized through
membership of the lowercased `str()` cast in `{"true","1","yes"}`. -/
def boolEquals (contextVal policyVal : Value) : Bool :=
  (["true", "1", "yes"].contains (pyLower (pyStr contextVal))) ==
    (["true", "1", "yes"].contains (pyLower (pyStr policyVal)))

/-- Model of `ConditionEvaluator._apply_operator`: dispatch on the operator name; any
name outside the supported set falls through to `False`. -/
def applyOperator (op : String) (contextVal policyVal : Value) : Bool :=
  if op = "StringEquals" then stringEquals contextVal policyVal
  else if op = "StringNotEquals" then !stringEquals contextVal policyVal
  else if op = "StringEqualsIgnoreCase" then stringEqualsIgnoreCase contextVal policyVal
  else if op = "StringLike" then stringLike contextVal policyVal
  else if op = "StringNotLike" then !stringLike contextVal policyVal
  else if op = "IpAddress" then ipAddressMatch contextVal policyVal
  else if op = "NotIpAddress" then !ipAddressMatch contextVal policyVal
  else if op = "NumericEquals" then numericEquals contextVal policyVal
  else if op = "NumericNotEquals" then !numericEquals contextVal policyVal
  else if op = "NumericGreaterThan" then numericGreaterThan contextVal policyVal false
  else if op = "NumericGreaterThanEquals" then numericGreaterThan contextVal policyVal true
  else if op = "NumericLessThan" then numericLessThan contextVal policyVal false
  else if op = "NumericLessThanEquals" then numericLessThan contextVal policyVal true
  else if op = "NumericDateGreaterThan" then dateGreaterThan contextVal policyVal
  else if op = "NumericDateLessThan" then dateLessThan contextVal policyVal
  else if op = "ArnLike" then arnLike contextVal policyVal
  else if op = "ArnNotLike" then !arnLike contextVal policyVal
  else if op = "Bool" then boolEquals contextVal policyVal
  else false

/-- The operator names `_apply_operator` recognizes (every other name takes
the fail-closed default branch). -/
def supportedOperators : List String :=
  ["StringEquals", "StringNotEquals", "StringEqualsIgnoreCase", "StringLike",
   "StringNotLike", "IpAddress", "NotIpAddress", "NumericEquals",
   "NumericNotEquals", "NumericGreaterThan", "NumericGreaterThanEquals",
   "NumericLessThan", "NumericLessThanEquals", "NumericDateGreaterThan",
   "NumericDateLessThan", "ArnLike", "ArnNotLike", "Bool"]

/-- Model of `self.context.get(context_key)`: missing keys read as `None`. -/
def ctxGet (ctx : List (String × Value)) (k : String) : Value :=
  (dictGet ctx k).getD .null

/-- Model of `ConditionEvaluator._evaluate_condition_key`: split the key on `:`;
exactly two parts → `operator, context_key`; one part → default operator
`StringEquals` on that key name; anything else → `False`. -/
def evaluateConditionKey (ctx : List (String × Value)) (key : String) (value : Value) : Bool :=
  match pySplit key ':' with
  | [op, contextKey] => applyOperator op (ctxGet ctx contextKey) value
  | [contextKey] => applyOperator "StringEquals" (ctxGet ctx contextKey) value
  | _ => false

/-- Model of `ConditionEvaluator.is_satisfied`: falsy condition → `True`, non-dict →
`False`, otherwise every key/value pair must hold. -/
def isSatisfied (ctx : List (String × Value)) (condition : Value) : Bool :=
  if pyTruthy condition = false then true
  else
    match condition with
    | .dict kvs => kvs.all (fun kv => evaluateConditionKey ctx kv.1 kv.2)
    | _ => false

/-! ### Policy graph (`networkx.DiGraph` as used by `src/graph/build_graph.py`)

`build_graph` constructs an `nx.DiGraph`; a `DiGraph` keeps at most one edge
per ordered node pair, and `add_edge` on an existing pair updates that edge's
attribute dict in place.  Nodes referenced by a new edge are added
automatically. -/

/-- Attribute dictionary of a node or edge. -/
abbrev Attrs := List (String × Value)

/-- Python `dict[k] = v` on an attribute dict. -/
def dictSet (d : Attrs) (k : String) (v : Value) : Attrs :=
  if d.any (fun kv => kv.1 == k) then
    d.map (fun kv => if kv.1 == k then (k, v) else kv)
  else d ++ [(k, v)]

/-- Python `dict.update`: later keys override, new keys append. -/
def attrsUpdate (dOld dNew : Attrs) : Attrs :=
  dNew.foldl (fun acc kv => dictSet acc kv.1 kv.2) dOld

/-- Directed graph with at most one attributed edge per ordered node pair
(the `networkx.DiGraph` the analyzer operates on). -/
structure DiGraph where
  nodes : List (String × Attrs)
  edges : List ((String × String) × Attrs)

/-- Model of `n in G` — node membership. -/
def hasNode (g : DiGraph) (n : String) : Bool :=
  g.nodes.any (fun p => p.1 == n)

/-- Model of `G.nodes.get(n)` — node attribute lookup. -/
def nodeAttrs (g : DiGraph) (n : String) : Option Attrs :=
  (g.nodes.find? (fun p => p.1 == n)).map (fun p => p.2)

/-- Model of `G.get_edge_data(u, v)` — `None` when the edge is absent. -/
def getEdgeData (g : DiGraph) (u v : String) : Option Attrs :=
  (g.edges.find? (fun e => e.1.1 == u && e.1.2 == v)).map (fun e => e.2)

/-- Model of `G.add_node(n, **attrs)`: update attributes when the node exists, append
otherwise. -/
def addNode (g : DiGraph) (n : String) (attrs : Attrs) : DiGraph :=
  if hasNode g n then
    { g with nodes := g.nodes.map (fun p => if p.1 == n then (p.1, attrsUpdate p.2 attrs) else p) }
  else
    { g with nodes := g.nodes ++ [(n, attrs)] }

/-- Model of `G.add_edge(u, v, **attrs)` on a `DiGraph`: missing endpoints are added as
nodes; an existing `(u, v)` edge gets its attribute dict updated (parallel
edges are impossible), otherwise the edge is appended. -/
def addEdge (g : DiGraph) (u v : String) (attrs : Attrs) : DiGraph :=
  let g1 := if hasNode g u then g else addNode g u []
  let g2 := if hasNode g1 v then g1 else addNode g1 v []
  if (getEdgeData g2 u v).isSome then
    { g2 with edges := g2.edges.map (fun e =>
        if e.1.1 == u && e.1.2 == v then (e.1, attrsUpdate e.2 attrs) else e) }
  else
    { g2 with edges := g2.edges ++ [((u, v), attrs)] }

/-- One row of `assets.json` as read by `build_graph` (`asset["id"]`,
`asset["type"]`, optional criticality/description). -/
structure Asset where
  id : String
  type : String
  criticality : Option String
  description : Option String

/-- One CSV row of `firewall_rules/rules.csv` (all columns optional strings,
matching `rule.get(...)`). -/
structure FirewallRule where
  action : Option String
  source : Option String
  destination : Option String
  ruleName : Option String
  protocol : Option String
  port : Option String

/-- One IAM policy JSON document as read by `build_graph`
(`Effect`, `Principal`, `Resource`, `Action`, `Condition`, `PolicyName`). -/
structure IamPolicy where
  effect : Option String
  principal : Option String
  resource : Option String
  action : Option Value
  condition : Option Value
  policyName : Option String

/-- Python truthiness of an optional string (`if source and destination`). -/
def optTruthy : Option String → Bool
  | some s => s != ""
  | none => false

/-- The `action=` edge attribute: `",".join(Action)` when `Action` is a list,
the raw value when present, `""` when absent. -/
def iamActionValue : Option Value → Value
  | some (.list vs) => .str (pyJoin "," (vs.map pyStr))
  | some v => v
  | none => .str ""

/-- Model of `build_graph` with the three loaded inputs passed explicitly (the file
loading in `load_assets` / `load_firewall_rules` / `load_iam_policies` is
I/O outside the core): assets become nodes, `allow` firewall rules become
`type="network"` edges, `Allow` IAM policies become `type="iam"` edges —
in that order, so an IAM edge added over an existing network edge for the
same ordered pair overwrites its `type` and merges attributes. -/
def buildGraphFrom (assets : List Asset) (rules : List FirewallRule)
    (policies : List IamPolicy) : DiGraph :=
  let g0 : DiGraph := ⟨[], []⟩
  let g1 := assets.foldl (fun g a =>
    addNode g a.id
      [("type", .str a.type),
       ("criticality", .str (a.criticality.getD "normal")),
       ("description", .str (a.description.getD ""))]) g0
  let g2 := rules.foldl (fun g r =>
    if pyLower (r.action.getD "") == "allow" then
      if optTruthy r.source && optTruthy r.destination then
        addEdge g (r.source.getD "") (r.destination.getD "")
          [("type", .str "network"),
           ("rule_name", .str (r.ruleName.getD "firewall_rule")),
           ("protocol", .str (r.protocol.getD "any")),
           ("port", .str (r.port.getD "any"))]
      else g
    else g) g1
  let g3 := policies.foldl (fun g p =>
    if pyLower (p.effect.getD "") == "allow" then
      if optTruthy p.principal && optTruthy p.resource then
        addEdge g (p.principal.getD "") (p.resource.getD "")
          [("type", .str "iam"),
           ("action", iamActionValue p.action),
           ("condition", p.condition.getD .null),
           ("policy_name", .str (p.policyName.getD "default"))]
      else g
    else g) g2
  g3

/-! ### AttackPathAnalyzer (`src/analysis/find_paths.py`) -/

/-- Model of `edge_data.get("type") == t` (a non-string attribute never equals the
string tag). -/
def edgeTypeIs (ed : Attrs) (t : String) : Bool :=
  match dictGet ed "type" with
  | some (.str s) => s == t
  | _ => false

/-- The `condition` attribute of an edge, `None` when absent
(`edge_data.get("condition")`). -/
def edgeCondition (ed : Attrs) : Value :=
  (dictGet ed "condition").getD .null

/-- Model of `AttackPathAnalyzer._is_path_valid`: every consecutive pair must have an
edge, and an `iam`-typed edge additionally needs its condition satisfied by
the execution context. -/
def isPathValid (g : DiGraph) (ctx : List (String × Value)) : List String → Bool
  | src :: dst :: rest =>
    match getEdgeData g src dst with
    | none => false
    | some ed =>
      (if edgeTypeIs ed "iam" then isSatisfied ctx (edgeCondition ed) else true)
        && isPathValid g ctx (dst :: rest)
  | _ => true

/-- The ordered consecutive pairs (steps) of a path. -/
def pathSteps : List String → List (String × String)
  | a :: b :: rest => (a, b) :: pathSteps (b :: rest)
  | _ => []

/-- Direct successors of a node (`self.graph` adjacency). -/
def successors (g : DiGraph) (u : String) : List String :=
  (g.edges.filter (fun e => e.1.1 == u)).map (fun e => e.1.2)

/-- Model of `nx.all_simple_paths(graph, source, target, cutoff)`: all directed paths
from `cur` to `target` without repeated nodes and with at most `fuel` edges. -/
def simplePathsAux (g : DiGraph) (target : String) :
    Nat → String → List String → List (List String)
  | fuel, cur, visited =>
    if cur == target then [[cur]]
    else
      match fuel with
      | 0 => []
      | Nat.succ f =>
        ((successors g cur).filter (fun n => !(cur :: visited).contains n)).flatMap
          (fun n => (simplePathsAux g target f n (cur :: visited)).map (fun p => cur :: p))

/-- The mutable analyzer metrics touched by `find_attack_paths`
(`evaluation_time` is wall-clock time and is not modelled). -/
structure Metrics where
  totalPathsFound : Nat
  pathsPruned : Nat
deriving DecidableEq

/-- Mutable state of an `AttackPathAnalyzer` instance: the `(source, target)`
path cache and the metrics counters. -/
structure AnalyzerState where
  pathCache : List ((String × String) × List (List String))
  metrics : Metrics

/-- The caller-facing failure of `find_attack_paths` (the spec's
`NodeNotFound`; the code raises `ValueError(f"... node '{n}' not found in
graph")`). -/
inductive AnalyzerError where
  | nodeNotFound (node : String)
deriving DecidableEq

/-- Cache lookup under a `(source, target)` key. -/
def cacheLookup (cache : List ((String × String) × List (List String)))
    (key : String × String) : Option (List (List String)) :=
  (cache.find? (fun kv => kv.1.1 == key.1 && kv.1.2 == key.2)).map (fun kv => kv.2)

/-- Model of `AttackPathAnalyzer.find_attack_paths`: serve from cache when enabled and
present; otherwise check both endpoints exist (raising `NodeNotFound`
before any enumeration, with the state untouched), enumerate bounded simple
paths, keep the valid ones, count pruned and found, and populate the cache. -/
def findAttackPaths (g : DiGraph) (ctx : List (String × Value)) (maxDepth : Nat)
    (source target : String) (useCache : Bool) (st : AnalyzerState) :
    Except AnalyzerError (List (List String)) × AnalyzerState :=
  match (if useCache then cacheLookup st.pathCache (source, target) else none) with
  | some cached => (.ok cached, st)
  | none =>
    if hasNode g source = false then (.error (.nodeNotFound source), st)
    else if hasNode g target = false then (.error (.nodeNotFound target), st)
    else
      let allPaths := simplePathsAux g target maxDepth source []
      let validPaths := allPaths.filter (fun p => isPathValid g ctx p)
      let st1 : AnalyzerState :=
        { st with metrics :=
            { totalPathsFound := st.metrics.totalPathsFound + validPaths.length,
              pathsPruned := st.metrics.pathsPruned + (allPaths.length - validPaths.length) } }
      let st2 : AnalyzerState :=
        if useCache then { st1 with pathCache := st1.pathCache ++ [((source, target), validPaths)] }
        else st1
      (.ok validPaths, st2)

/-- Truthiness of an edge's `condition` attribute
(`if edge_data.get("condition")`). -/
def condTruthy (ed : Attrs) : Bool :=
  pyTruthy (edgeCondition ed)

/-- The per-step loop of `AttackPathAnalyzer.score_path` (Factor 3): counts
`iam`-typed steps and `iam` steps with a truthy condition.  A missing edge
makes `edge_data` `None` and the unguarded `edge_data.get("type")` raise
`AttributeError` — modelled as `none`. -/
def scoreSteps (g : DiGraph) : List String → Option (Nat × Nat)
  | src :: dst :: rest =>
    match getEdgeData g src dst with
    | none => none
    | some ed =>
      match scoreSteps g (dst :: rest) with
      | none => none
      | some (iamN, condN) =>
        if edgeTypeIs ed "iam" then
          some (iamN + 1, if condTruthy ed then condN + 1 else condN)
        else some (iamN, condN)
  | _ => some (0, 0)

/-- The target-criticality bonus of `score_path`
(`target_data.get("criticality", "normal")` compared against the three
tags). -/
def criticalityBonus (g : DiGraph) (target : String) : ℚ :=
  match (dictGet ((nodeAttrs g target).getD []) "criticality").getD (.str "normal") with
  | .str s => if s == "critical" then 40 else if s == "high" then 30
              else if s == "medium" then 15 else 0
  | _ => 0

/-- Model of `AttackPathAnalyzer.score_path`: paths shorter than 2 nodes score `0.0`;
otherwise base 10, plus `max(0, 25 - (len-2)*3)` for path length, plus the
target-criticality bonus, plus 5 per `iam` step and 3 per `iam` step with a
truthy condition, capped by `min(100.0, score)`.  `none` models the
`AttributeError` raised when a consecutive pair has no edge. -/
def scorePath (g : DiGraph) (path : List String) : Option ℚ :=
  if path.length < 2 then some 0
  else
    match scoreSteps g path with
    | none => none
    | some (iamN, condN) =>
      let score : ℚ := 10 + max 0 (25 - ((path.length : ℚ) - 2) * 3)
      let score := score + criticalityBonus g (path.getLast?.getD "")
      let score := score + (iamN : ℚ) * 5 + (condN : ℚ) * 3
      some (min 100 score)

/-- One step's explanation string in `AttackPathAnalyzer.explain_path`
(`none` when the edge's `type` is neither `network` nor `iam`). -/
def explainStep (stepNum : Nat) (src dst : String) (ed : Attrs) : Option String :=
  if edgeTypeIs ed "network" then
    let ruleName := pyStr ((dictGet ed "rule_name").getD (.str "firewall rule"))
    some ("Step " ++ toString stepNum ++ ": [" ++ src ++ "] can reach [" ++ dst ++
      "] via network (" ++ ruleName ++ ")")
  else if edgeTypeIs ed "iam" then
    let action := pyStr ((dictGet ed "action").getD (.str "access"))
    let condInfo :=
      if condTruthy ed then
        " (conditions satisfied: " ++ pyStr (edgeCondition ed) ++ ")"
      else ""
    some ("Step " ++ toString stepNum ++ ": [" ++ src ++ "] has IAM permission to [" ++
      dst ++ "] (" ++ action ++ ")" ++ condInfo)
  else none

/-- The explanation loop of `explain_path`: a step whose edge is missing is
skipped (`if edge_data is None: continue`). -/
def explainSteps (g : DiGraph) (stepNum : Nat) : List String → List String
  | src :: dst :: rest =>
    let tail := explainSteps g (stepNum + 1) (dst :: rest)
    match getEdgeData g src dst with
    | none => tail
    | some ed =>
      match explainStep stepNum src dst ed with
      | none => tail
      | some s => s :: tail
  | _ => []

/-- Model of `AttackPathAnalyzer.explain_path`: empty for paths shorter than 2 nodes,
otherwise one entry per surviving step, numbered from 1. -/
def explainPath (g : DiGraph) (path : List String) : List String :=
  if path.length < 2 then [] else explainSteps g 1 path

/-! ### PathThreatScorer (`src/threat_scoring/threat_scorer.py`) -/

/-- Model of `PathThreatScorer._calculate_exploitability`: 0 when not exploitable;
otherwise base 6.0, minus `max(0, (path_length - 1) * 0.5)`, floored at 3.5,
plus 1.5 for authentication bypass and 1.0 for privilege escalation, capped
at 10. (`path_length` is the node count `len(path)` of the scored path.) -/
def calculateExploitability (isExploitable : Bool) (pathLength : Nat)
    (hasAuthBypass hasPrivesc : Bool) : ℚ :=
  if isExploitable = false then 0
  else
    let score : ℚ := 6
    let score := score - max 0 (((pathLength : ℚ) - 1) * (1 / 2))
    let score := max (7 / 2) score
    let score := if hasAuthBypass then score + 3 / 2 else score
    let score := if hasPrivesc then score + 1 else score
    min 10 score

/-! ### Z3Verifier (`src/verification/z3_verifier.py`)

The z3 library is an external collaborator: the constraint expressions it
builds are embedded as the inductive `ZExpr`, and the solver's `check()`
verdict is an explicit parameter of type `SolverOutcome` (sat with a model /
unsat / unknown), as is the elapsed wall-clock time. -/

/-- The z3 expressions `PolicyToZ3Converter` constructs. -/
inductive ZExpr where
  | boolVal (b : Bool) : ZExpr
  | strEq (varName val : String) : ZExpr
  | hasPre (pre varName : String) : ZExpr
  | orE (es : List ZExpr) : ZExpr
  | andE (es : List ZExpr) : ZExpr
  | notE (e : ZExpr) : ZExpr
  | intGt (varName : String) (n : Int) : ZExpr
  | intLt (varName : String) (n : Int) : ZExpr
  | intEq (varName : String) (n : Int) : ZExpr

/-- One condition document consumed by `condition_to_constraint`
(`{"operator": ..., "key": ..., "values": [...]}`). -/
structure ZCondition where
  operator : String
  key : String
  values : List String

/-- One policy document consumed by `add_policy_constraints`
(`conditions` list plus optional `effect`, defaulting to `"Allow"`). -/
structure ZPolicy where
  conditions : List ZCondition
  effect : Option String

/-- The tri-state verdict of `solver.check()` (z3 `sat` with its model as a
variable-to-string map, `unsat`, or `unknown` for timeout/indeterminate). -/
inductive SolverOutcome where
  | sat (model : List (String × String)) : SolverOutcome
  | unsat : SolverOutcome
  | unknown : SolverOutcome

/-- Model of `VerificationResult` enum. -/
inductive VerificationResult where
  | exploitable : VerificationResult
  | blocked : VerificationResult
  | unknown : VerificationResult
deriving DecidableEq

/-- Model of `ProofResult` dataclass (the fields `verify_path_exploitability`
populates). -/
structure ProofResult where
  result : VerificationResult
  path : List String
  constraintsSatisfied : Option Bool
  numConstraints : Nat
  solverTimeMs : ℚ
  model : Option (List (String × String))
  counterexample : Option (List (String × String))
  explanation : String
  constraintsUsed : Option (List String)

/-- Model of `PolicyToZ3Converter.condition_to_constraint`: lowercase the operator and
key, then build the per-operator constraint.  `ok none` models the `return
None` paths (unknown operator, or an ip operator on a key other than
`aws:sourceip`); `error` models a Python exception escaping the helper (the
`int(values[0])` cast on a non-numeric value). -/
def conditionToConstraint (c : ZCondition) : Except String (Option ZExpr) :=
  let operator := pyLower c.operator
  let key := pyLower c.key
  let values := c.values
  if operator = "stringequals" then
    .ok (some (if values.isEmpty then .boolVal false
               else .orE (values.map (fun v => .strEq key v))))
  else if operator = "stringlike" then
    .ok (some (if values.isEmpty then .boolVal false
               else .orE (values.map (fun pat =>
                 if pat.data.contains '*' || pat.data.contains '?' then
                   .hasPre (if pat.data.contains '*' then
                              String.mk ((pySplitChar '*' pat.data).headD [])
                            else pat) key
                 else .strEq key pat))))
  else if operator = "ipaddress" then
    if key = "aws:sourceip" then
      .ok (some (if values.isEmpty then .boolVal false
                 else .orE (values.map (fun cidr =>
                   .hasPre (if cidr.data.contains '/' then
                              String.mk ((pySplitChar '/' cidr.data).headD [])
                            else cidr) "source_ip"))))
    else .ok none
  else if operator = "stringnotequals" then
    .ok (some (if values.isEmpty then .boolVal true
               else .notE (.orE (values.map (fun v => .strEq key v)))))
  else if operator = "notipaddress" then
    if key = "aws:sourceip" then
      .ok (some (if values.isEmpty then .boolVal true
                 else .notE (.orE (values.map (fun cidr =>
                   .hasPre (if cidr.data.contains '/' then
                              String.mk ((pySplitChar '/' cidr.data).headD [])
                            else cidr) "source_ip")))))
    else .ok none
  else if operator = "numericgreater" then
    match values with
    | [] => .ok (some (.intGt key 0))
    | v :: _ =>
      match pyIntStr v with
      | some n => .ok (some (.intGt key n))
      | none => .error ("invalid literal for int() with base 10: " ++ v)
  else if operator = "numericless" then
    match values with
    | [] => .ok (some (.intLt key 0))
    | v :: _ =>
      match pyIntStr v with
      | some n => .ok (some (.intLt key n))
      | none => .error ("invalid literal for int() with base 10: " ++ v)
  else if operator = "numericequals" then
    match values with
    | [] => .ok (some (.intEq key 0))
    | v :: _ =>
      match pyIntStr v with
      | some n => .ok (some (.intEq key n))
      | none => .error ("invalid literal for int() with base 10: " ++ v)
  else if operator = "arnlike" then
    .ok (some (if values.isEmpty then .boolVal false
               else .orE (values.map (fun pat =>
                 if pat.data.contains '*' then
                   .hasPre (String.mk ((pySplitChar '*' pat.data).headD [])) key
                 else .strEq key pat))))
  else if operator = "bool" then
    .ok (some (.boolVal (match values with
      | [] => false
      | v :: _ => ["true", "1"].contains (pyLower v))))
  else .ok none

/-- Constraint accumulation for one policy statement: the named constraints
(`self.constraints` entries, keyed by the raw condition key) and the clause
asserted to the solver (`And` of the statement's constraints for `ALLOW`,
its negation for `DENY`, nothing when no constraint was produced). -/
def policyConstraints (p : ZPolicy) :
    Except String (List (String × ZExpr) × List ZExpr) := do
  let mut named : List (String × ZExpr) := []
  let mut clause : List ZExpr := []
  for c in p.conditions do
    match conditionToConstraint c with
    | .error e => throw e
    | .ok none => pure ()
    | .ok (some z) =>
      named := named ++ [(c.key, z)]
      clause := clause ++ [z]
  let eff := pyUpper (p.effect.getD "Allow")
  if eff = "ALLOW" && !clause.isEmpty then
    return (named, [.andE clause])
  else if eff = "DENY" && !clause.isEmpty then
    return (named, [.notE (.andE clause)])
  else
    return (named, [])

/-- Model of `PolicyToZ3Converter.add_policy_constraints` over the policy list:
the accumulated named constraints and solver assertions, or the first
escaping exception. -/
def addPolicyConstraints (policies : List ZPolicy) :
    Except String (List (String × ZExpr) × List ZExpr) := do
  let mut named : List (String × ZExpr) := []
  let mut asserts : List ZExpr := []
  for p in policies do
    match policyConstraints p with
    | .error e => throw e
    | .ok (n, a) =>
      named := named ++ n
      asserts := asserts ++ a
  return (named, asserts)

/-- Model of `PolicyToZ3Converter.add_execution_context`: string values assert string
equality, integers (and booleans, which are `int` instances in Python)
assert integer equality; other value shapes are skipped. -/
def contextAsserts (ctx : List (String × Value)) : List ZExpr :=
  ctx.filterMap (fun kv =>
    match kv.2 with
    | .str s => some (.strEq kv.1 s)
    | .int n => some (.intEq kv.1 n)
    | .bool b => some (.intEq kv.1 (if b then 1 else 0))
    | _ => none)

/-- Model of `Z3Verifier.verify_path_exploitability`: compile the policies and context
into constraints, invoke the solver (`check`, the external z3 verdict on the
asserted constraints), and package the verdict; every internal exception is
caught and becomes an `Unknown` result carrying the error message.  The
elapsed wall-clock time is the explicit `elapsedMs` parameter, and the
`:.1f` float formatting of the Python explanation strings is not modelled. -/
def verifyPathExploitability (check : List ZExpr → SolverOutcome)
    (path : List String) (policies : List ZPolicy) (ctx : List (String × Value))
    (elapsedMs : ℚ) : ProofResult :=
  match addPolicyConstraints policies with
  | .error e =>
    { result := .unknown, path := path, constraintsSatisfied := none,
      numConstraints := 0, solverTimeMs := elapsedMs, model := none,
      counterexample := none,
      explanation := "Verification error: " ++ e, constraintsUsed := none }
  | .ok (named, asserts) =>
    match check (asserts ++ contextAsserts ctx) with
    | .sat m =>
      { result := .exploitable, path := path, constraintsSatisfied := some true,
        numConstraints := named.length, solverTimeMs := elapsedMs,
        model := if m.isEmpty then none else some m,
        counterexample := none,
        explanation := "Path " ++ pyJoin " → " path ++
          " is EXPLOITABLE under the given constraints. Solver found satisfying assignment.",
        constraintsUsed := some (named.map (fun nc => nc.1)) }
    | .unsat =>
      { result := .blocked, path := path, constraintsSatisfied := some false,
        numConstraints := named.length, solverTimeMs := elapsedMs,
        model := none,
        counterexample := some [("reason", "All constraints unsatisfiable")],
        explanation := "Path " ++ pyJoin " → " path ++
          " is BLOCKED. No satisfying assignment exists (UNSAT).",
        constraintsUsed := some (named.map (fun nc => nc.1)) }
    | .unknown =>
      { result := .unknown, path := path, constraintsSatisfied := none,
        numConstraints := named.length, solverTimeMs := elapsedMs,
        model := none, counterexample := none,
        explanation := "Verification result UNKNOWN (solver returned unknown) for path " ++
          pyJoin " → " path ++ ".",
        constraintsUsed := some (named.map (fun nc => nc.1)) }

/-! ### Spec-side formulas and concrete instances used by the theorems -/

/-- The exploitability component as the amended claim words it: 0 when not
exploitable; otherwise base 6.0 minus 0.5 per hop — `path_length - 1` hops
for a path of `path_length` nodes — floored at 3.5, plus 1.5 for
authentication bypass and 1.0 for privilege escalation, capped at 10. -/
def exploitabilitySpecAmended (isExploitable : Bool) (pathLength : Nat)
    (hasAuthBypass hasPrivesc : Bool) : ℚ :=
  if isExploitable = false then 0
  else
    min 10 (max (7 / 2) (6 - ((pathLength : ℚ) - 1) * (1 / 2)) +
      (if hasAuthBypass then 3 / 2 else 0) + (if hasPrivesc then 1 else 0))

/-- Number of `iam`-typed steps a path traverses in a graph. -/
def iamStepCount (g : DiGraph) (path : List String) : Nat :=
  ((pathSteps path).filter (fun s =>
    match getEdgeData g s.1 s.2 with
    | some ed => edgeTypeIs ed "iam"
    | none => false)).length

/-- Number of `iam`-typed steps with a truthy condition a path traverses. -/
def iamCondStepCount (g : DiGraph) (path : List String) : Nat :=
  ((pathSteps path).filter (fun s =>
    match getEdgeData g s.1 s.2 with
    | some ed => edgeTypeIs ed "iam" && condTruthy ed
    | none => false)).length

/-- Concrete assets: two nodes `A` and `B`, `B` critical. -/
def c1Assets : List Asset :=
  [⟨"A", "server", none, none⟩, ⟨"B", "db", some "critical", none⟩]

/-- Concrete firewall input: one `allow` rule `A → B` (a Network edge). -/
def c1Rules : List FirewallRule :=
  [⟨some "allow", some "A", some "B", some "r1", none, none⟩]

/-- Concrete IAM input: one `Allow` policy `A → B` whose condition requires
`source_ip = 10.0.0.1` (an Iam edge over the same ordered pair). -/
def c1Policies : List IamPolicy :=
  [⟨some "Allow", some "A", some "B", none,
    some (.dict [("StringEquals:source_ip", .str "10.0.0.1")]), none⟩]

/-- The graph built from the concrete inputs: the network edge `A → B` is
added first, then the IAM policy targets the same ordered pair. -/
def c1Graph : DiGraph := buildGraphFrom c1Assets c1Rules c1Policies

/-- An execution context that does not satisfy the IAM condition above. -/
def c1CtxBad : List (String × Value) := [("source_ip", .str "somewhere-else")]

/-! ## Theorems -/

/-- C4 counterexample: the empty string is a non-mapping condition value, for
which the claim demands `false`, but `is_satisfied` hits `if not condition:
return True` first and returns `True` (the non-mapping check is only reached
for truthy values). -/
theorem claim_C4_counterexample : isSatisfied [] (.str "") = true := by decide

/-- C4 amended: `is_satisfied` returns true on every falsy condition value
(null and the empty mapping, but also the empty string, empty list, zero and
`False`); it returns false on truthy non-mapping values; and on a condition
mapping it holds iff every key independently holds (logical AND). -/
theorem claim_C4_amended (ctx : List (String × Value)) (cond : Value) :
    (pyTruthy cond = false → isSatisfied ctx cond = true) ∧
    (pyTruthy cond = true → cond.isDict = false → isSatisfied ctx cond = false) ∧
    (∀ kvs, cond = .dict kvs →
      (isSatisfied ctx cond = true ↔
        ∀ kv ∈ kvs, evaluateConditionKey ctx kv.1 kv.2 = true)) := by
  refine ⟨fun h => by simp [isSatisfied, h], fun ht hd => ?_, fun kvs hk => ?_⟩
  · cases cond <;> simp_all [isSatisfied, Value.isDict, pyTruthy]
  · subst hk
    rcases kvs with _ | ⟨kv, rest⟩
    · simp [isSatisfied, pyTruthy]
    · simp [isSatisfied, pyTruthy, List.all_eq_true]

/-- C4 witness: the amended trichotomy applied at concrete inputs. -/
theorem claim_C4_witness :
    isSatisfied [] (.dict []) = true ∧ isSatisfied [] (.int 7) = false :=
  ⟨(claim_C4_amended [] (.dict [])).1 (by decide),
   (claim_C4_amended [] (.int 7)).2.1 (by decide) (by decide)⟩

/-- C2 counterexample: with a context value that fails to parse as an IP, the
claim demands that a `NotIpAddress` key evaluate to false, but the code
negates the failed positive match (`not _ip_address_match(...)` where the
parse error made `_ip_address_match` return `False`), so the key — and the
whole condition — evaluates to true. -/
theorem claim_C2_counterexample :
    isSatisfied [("source_ip", .str "not-an-ip")]
      (.dict [("NotIpAddress:source_ip", .str "10.0.0.0/8")]) = true := by decide

/-- C2 amended: `NotIpAddress` is the plain boolean negation of `IpAddress`;
a parse failure of the context value makes `IpAddress` evaluate false, hence
makes `NotIpAddress` evaluate true (fail-open for the negated variant). -/
theorem claim_C2_amended (cv pv : Value) :
    applyOperator "NotIpAddress" cv pv = !ipAddressMatch cv pv ∧
    (parseIpv4 (pyStr cv) = none → ipAddressMatch cv pv = false) ∧
    (parseIpv4 (pyStr cv) = none → applyOperator "NotIpAddress" cv pv = true) := by
  have h1 : applyOperator "NotIpAddress" cv pv = !ipAddressMatch cv pv := by
    simp [applyOperator]
  have h2 : parseIpv4 (pyStr cv) = none → ipAddressMatch cv pv = false := by
    intro h
    cases cv <;> simp_all [ipAddressMatch]
  exact ⟨h1, h2, fun h => by rw [h1, h2 h]; rfl⟩

/-- C2 witness: the amended statement applied at the unparsable context
value. -/
theorem claim_C2_witness :
    applyOperator "NotIpAddress" (.str "not-an-ip") (.str "10.0.0.0/8") = true :=
  (claim_C2_amended (.str "not-an-ip") (.str "10.0.0.0/8")).2.2 (by decide)

/-- C6 counterexample: the claim says an exploitable single-hop 2-node path
with no flags scores exactly 6.0, but `_calculate_exploitability` subtracts
`max(0, (path_length - 1) * 0.5) = 0.5` for `path_length = 2`, yielding
5.5. -/
theorem claim_C6_counterexample :
    calculateExploitability true 2 false false ≠ 6 := by
  norm_num [calculateExploitability, max_def, min_def]

/-- C6 amended: the deduction is 0.5 per hop — `path_length - 1` hops for a
`path_length`-node path — not per hop beyond the first; with that change the
component formula holds (and a 2-node path scores 5.5): 0 when not
exploitable, else base 6.0 minus `0.5 * (path_length - 1)` floored at 3.5,
plus 1.5 for auth bypass and 1.0 for privilege escalation, capped at 10. -/
theorem claim_C6_amended (e : Bool) (n : Nat) (a p : Bool) (hn : 1 ≤ n) :
    calculateExploitability e n a p = exploitabilitySpecAmended e n a p ∧
    calculateExploitability false n a p = 0 ∧
    calculateExploitability true 2 false false = 11 / 2 := by
  refine ⟨?_, by simp [calculateExploitability], ?_⟩
  · cases e with
    | false => simp [calculateExploitability, exploitabilitySpecAmended]
    | true =>
      have h1 : (1 : ℚ) ≤ (n : ℚ) := by exact_mod_cast hn
      have hq : (0 : ℚ) ≤ ((n : ℚ) - 1) * (1 / 2) := by nlinarith
      simp only [calculateExploitability, exploitabilitySpecAmended,
        Bool.true_eq_false, if_false, max_eq_right hq]
      cases a <;> cases p <;> simp
  · norm_num [calculateExploitability, max_def, min_def]

/-- C6 witness: the amended formula at the 2-node path. -/
theorem claim_C6_witness :
    calculateExploitability true 2 false false = exploitabilitySpecAmended true 2 false false :=
  (claim_C6_amended true 2 false false (by norm_num)).1

/-- Splitting a separator-free string yields the single whole chunk. -/
theorem pySplitChar_no_sep (sep : Char) (cs : List Char) (h : sep ∉ cs) :
    pySplitChar sep cs = [cs] := by
  induction cs with
  | nil => rfl
  | cons c cs ih =>
    have hc : ¬c = sep := fun hc => h (hc ▸ List.mem_cons_self c cs)
    have hcs : sep ∉ cs := fun hm => h (List.mem_cons_of_mem c hm)
    simp [pySplitChar, hc, ih hcs]

/-- Splitting past the first separator occurrence peels off the prefix. -/
theorem pySplitChar_sep_append (sep : Char) (a b : List Char) (h : sep ∉ a) :
    pySplitChar sep (a ++ sep :: b) = a :: pySplitChar sep b := by
  induction a with
  | nil => simp [pySplitChar]
  | cons c cs ih =>
    have hc : ¬c = sep := fun hc => h (hc ▸ List.mem_cons_self c cs)
    have hcs : sep ∉ cs := fun hm => h (List.mem_cons_of_mem c hm)
    simp [pySplitChar, hc, ih hcs]

/-- Model of `split` produces one chunk more than the number of separators. -/
theorem pySplitChar_length (sep : Char) (cs : List Char) :
    (pySplitChar sep cs).length = cs.count sep + 1 := by
  induction cs with
  | nil => simp [pySplitChar]
  | cons c cs ih =>
    by_cases hc : c = sep
    · subst hc; simp [pySplitChar, ih, List.count_cons]
    · rcases hr : pySplitChar sep cs with _ | ⟨p, ps⟩
      · rw [hr] at ih; simp at ih
      · rw [hr] at ih
        simp [pySplitChar, hc, hr, List.count_cons, Ne.symm hc]
        simpa using ih

/-- Structure eta: rebuilding a string from its characters is the identity. -/
theorem stringMkData (s : String) : String.mk s.data = s := rfl

/-- Character list of a string concatenation. -/
theorem stringDataAppend (a b : String) : (a ++ b).data = a.data ++ b.data := by
  cases a; cases b; rfl

/-- C7: condition-key resolution — a colon-free key is treated as
`StringEquals` on that key name; an `Operator:field` key applies `Operator`
to the context value at `field`; a key with two or more colons evaluates
false; and any operator name outside the supported set evaluates false
regardless of the operands (fail-closed default). -/
theorem claim_C7 (ctx : List (String × Value)) (v : Value) (op fld key : String)
    (cv pv : Value) :
    (':' ∉ key.data → evaluateConditionKey ctx key v =
      applyOperator "StringEquals" (ctxGet ctx key) v) ∧
    (':' ∉ op.data → ':' ∉ fld.data →
      evaluateConditionKey ctx (op ++ ":" ++ fld) v = applyOperator op (ctxGet ctx fld) v) ∧
    (2 ≤ key.data.count ':' → evaluateConditionKey ctx key v = false) ∧
    (op ∉ supportedOperators → applyOperator op cv pv = false) := by
  refine ⟨fun h => ?_, fun ho hf => ?_, fun h => ?_, fun h => ?_⟩
  · have hs : pySplit key ':' = [key] := by
      simp [pySplit, pySplitChar_no_sep ':' key.data h, stringMkData]
    simp [evaluateConditionKey, hs]
  · have hdata : (op ++ ":" ++ fld).data = op.data ++ ':' :: fld.data := by
      rw [stringDataAppend, stringDataAppend, List.append_assoc]; rfl
    have hs : pySplit (op ++ ":" ++ fld) ':' = [op, fld] := by
      simp [pySplit, hdata, pySplitChar_sep_append ':' op.data _ ho,
        pySplitChar_no_sep ':' fld.data hf, stringMkData]
    simp [evaluateConditionKey, hs]
  · have hlen : 3 ≤ (pySplit key ':').length := by
      simp [pySplit, pySplitChar_length]
      omega
    rcases hp : pySplit key ':' with _ | ⟨a, _ | ⟨b, _ | ⟨c, t⟩⟩⟩ <;>
      rw [hp] at hlen <;> simp at hlen
    simp [evaluateConditionKey, hp]
  · simp only [supportedOperators, List.mem_cons, List.not_mem_nil, or_false,
      not_or] at h
    obtain ⟨e1, e2, e3, e4, e5, e6, e7, e8, e9, e10, e11, e12, e13, e14, e15,
      e16, e17, e18⟩ := h
    simp [applyOperator, e1, e2, e3, e4, e5, e6, e7, e8, e9, e10, e11, e12,
      e13, e14, e15, e16, e17, e18]

/-- C7 witness: resolution applied at concrete keys — a bare key, a
double-colon key, and an unknown operator. -/
theorem claim_C7_witness :
    evaluateConditionKey [("a", .str "x")] "a" (.str "x") =
      applyOperator "StringEquals" (ctxGet [("a", .str "x")] "a") (.str "x") ∧
    evaluateConditionKey [] "StringEquals:a:b" (.str "x") = false ∧
    applyOperator "Frobnicate" (.str "x") (.str "x") = false :=
  ⟨(claim_C7 [("a", .str "x")] (.str "x") "" "" "a" .null .null).1 (by decide),
   (claim_C7 [] (.str "x") "" "" "StringEquals:a:b" .null .null).2.2.1 (by decide),
   (claim_C7 [] .null "Frobnicate" "" "" (.str "x") (.str "x")).2.2.2 (by decide)⟩

/-- When every step of a path has an edge, the scoring loop completes and
counts exactly the `iam` steps and the `iam` steps with truthy conditions. -/
theorem scoreSteps_eq_counts (g : DiGraph) :
    ∀ path : List String,
      (∀ s ∈ pathSteps path, (getEdgeData g s.1 s.2).isSome = true) →
      scoreSteps g path = some (iamStepCount g path, iamCondStepCount g path) := by
  intro path
  induction path with
  | nil => intro _; rfl
  | cons a tail ih =>
    rcases tail with _ | ⟨b, rest⟩
    · intro _; rfl
    · intro h
      have hab : (getEdgeData g a b).isSome = true := h (a, b) (by simp [pathSteps])
      rcases hed : getEdgeData g a b with _ | ed
      · rw [hed] at hab; simp at hab
      · have htail : ∀ s ∈ pathSteps (b :: rest), (getEdgeData g s.1 s.2).isSome = true :=
          fun s hs => h s (by simp [pathSteps, hs])
        have ihh := ih htail
        cases hiam : edgeTypeIs ed "iam" with
        | false =>
          simp [scoreSteps, hed, ihh, hiam, iamStepCount, iamCondStepCount,
            pathSteps, List.filter_cons]
        | true =>
          cases hcond : condTruthy ed with
          | false =>
            simp [scoreSteps, hed, ihh, hiam, hcond, iamStepCount,
              iamCondStepCount, pathSteps, List.filter_cons]
          | true =>
            simp [scoreSteps, hed, ihh, hiam, hcond, iamStepCount,
              iamCondStepCount, pathSteps, List.filter_cons]

/-- A missing edge on any step makes the scoring loop fault (`none`). -/
theorem scoreSteps_missing (g : DiGraph) :
    ∀ path : List String,
      (∃ s ∈ pathSteps path, getEdgeData g s.1 s.2 = none) →
      scoreSteps g path = none := by
  intro path
  induction path with
  | nil => rintro ⟨s, hs, _⟩; simp [pathSteps] at hs
  | cons a tail ih =>
    rcases tail with _ | ⟨b, rest⟩
    · rintro ⟨s, hs, _⟩; simp [pathSteps] at hs
    · rintro ⟨s, hs, hnone⟩
      rcases List.mem_cons.mp (by simpa [pathSteps] using hs) with heq | hmem
      · subst heq; simp [scoreSteps, hnone]
      · have htail := ih ⟨s, hmem, hnone⟩
        cases hed : getEdgeData g a b <;> simp [scoreSteps, hed, htail]

/-- The target-criticality bonus is never negative. -/
theorem criticalityBonus_nonneg (g : DiGraph) (t : String) :
    0 ≤ criticalityBonus g t := by
  unfold criticalityBonus
  split
  · split_ifs <;> norm_num
  · norm_num

/-- The explanation loop produces at most one entry per step whose edge
exists (missing-edge steps are skipped). -/
theorem explainSteps_length (g : DiGraph) :
    ∀ (path : List String) (n : Nat),
      (explainSteps g n path).length ≤
        ((pathSteps path).filter (fun s => (getEdgeData g s.1 s.2).isSome)).length := by
  intro path
  induction path with
  | nil => intro n; simp [explainSteps, pathSteps]
  | cons a tail ih =>
    rcases tail with _ | ⟨b, rest⟩
    · intro n; simp [explainSteps, pathSteps]
    · intro n
      cases hed : getEdgeData g a b with
      | none =>
        simpa [explainSteps, hed, pathSteps, List.filter_cons] using ih (n + 1)
      | some ed =>
        cases hst : explainStep n a b ed with
        | none =>
          refine le_trans ?_ (by
            simp [pathSteps, List.filter_cons, hed] :
              ((pathSteps (b :: rest)).filter
                (fun s => (getEdgeData g s.1 s.2).isSome)).length ≤
              (((a, b) :: pathSteps (b :: rest)).filter
                (fun s => (getEdgeData g s.1 s.2).isSome)).length)
          simpa [explainSteps, hed, hst] using ih (n + 1)
        | some s =>
          have := ih (n + 1)
          simp [explainSteps, hed, hst, pathSteps, List.filter_cons]
          omega

/-- C5: `score_path` of a path shorter than 2 nodes is exactly 0; any
returned score lies in [0, 100]; and when every consecutive pair is backed
by an edge, the score is base 10 plus `max(0, 25 - 3*(len-2))` for length,
plus the target criticality bonus, plus 5 per Iam step and 3 per Iam step
with a non-empty (truthy) condition, clamped to 100. -/
theorem claim_C5 (g : DiGraph) (path : List String) :
    (path.length < 2 → scorePath g path = some 0) ∧
    (∀ q, scorePath g path = some q → 0 ≤ q ∧ q ≤ 100) ∧
    (2 ≤ path.length →
      (∀ s ∈ pathSteps path, (getEdgeData g s.1 s.2).isSome = true) →
      scorePath g path =
        some (min 100 (10 + max 0 (25 - ((path.length : ℚ) - 2) * 3) +
          criticalityBonus g (path.getLast?.getD "") +
          (iamStepCount g path : ℚ) * 5 + (iamCondStepCount g path : ℚ) * 3))) := by
  refine ⟨fun h => by simp [scorePath, h], fun q hq => ?_, fun h2 hall => ?_⟩
  · by_cases hlen : path.length < 2
    · simp [scorePath, hlen] at hq
      constructor <;> simp [← hq]
    · rw [scorePath, if_neg hlen] at hq
      rcases hsc : scoreSteps g path with _ | ⟨iamN, condN⟩
      · rw [hsc] at hq; simp at hq
      · rw [hsc] at hq
        simp only [Option.some.injEq] at hq
        subst hq
        have hx : (0 : ℚ) ≤ 10 + max 0 (25 - ((path.length : ℚ) - 2) * 3) +
            criticalityBonus g (path.getLast?.getD "") +
            (iamN : ℚ) * 5 + (condN : ℚ) * 3 := by
          have := criticalityBonus_nonneg g (path.getLast?.getD "")
          have h5 : (0 : ℚ) ≤ (iamN : ℚ) * 5 := by positivity
          have h3 : (0 : ℚ) ≤ (condN : ℚ) * 3 := by positivity
          have hm : (0 : ℚ) ≤ max 0 (25 - ((path.length : ℚ) - 2) * 3) := le_max_left _ _
          linarith
        exact ⟨le_min (by norm_num) hx, min_le_left _ _⟩
  · have hlen : ¬path.length < 2 := by omega
    rw [scorePath, if_neg hlen, scoreSteps_eq_counts g path hall]

/-- C5 witness: the merged-graph 2-node path `A → B` (edge present), scored by
the clamped formula. -/
theorem claim_C5_witness :
    scorePath c1Graph ["A", "B"] =
      some (min 100 (10 + max 0 (25 - (((["A", "B"] : List String).length : ℚ) - 2) * 3) +
        criticalityBonus c1Graph ((["A", "B"] : List String).getLast?.getD "") +
        (iamStepCount c1Graph ["A", "B"] : ℚ) * 5 +
        (iamCondStepCount c1Graph ["A", "B"] : ℚ) * 3)) :=
  (claim_C5 c1Graph ["A", "B"]).2.2 (by decide) (by decide)

/-- C10: for a path of length ≥ 2, `score_path` faults (returns no score)
exactly when some consecutive pair has no edge — it completes when every
pair is backed by an edge — while `explain_path` never faults and instead
silently skips missing-edge steps, producing at most one entry per step
whose edge exists. -/
theorem claim_C10 (g : DiGraph) (path : List String) (h2 : 2 ≤ path.length) :
    ((∃ s ∈ pathSteps path, getEdgeData g s.1 s.2 = none) → scorePath g path = none) ∧
    ((∀ s ∈ pathSteps path, (getEdgeData g s.1 s.2).isSome = true) →
      (scorePath g path).isSome = true) ∧
    (explainPath g path).length ≤
      ((pathSteps path).filter (fun s => (getEdgeData g s.1 s.2).isSome)).length := by
  have hlen : ¬path.length < 2 := by omega
  refine ⟨fun hmiss => ?_, fun hall => ?_, ?_⟩
  · rw [scorePath, if_neg hlen, scoreSteps_missing g path hmiss]
  · rw [scorePath, if_neg hlen, scoreSteps_eq_counts g path hall]; rfl
  · rw [explainPath, if_neg hlen]
    exact explainSteps_length g path 1

/-- C10 witness: on the concrete merged graph, the path `A → X → B` (no edge
on either step) makes `score_path` fault while `explain_path` returns an
(empty) list, and the fully-backed path `A → B` scores. -/
theorem claim_C10_witness :
    scorePath c1Graph ["A", "X", "B"] = none ∧
    (scorePath c1Graph ["A", "B"]).isSome = true ∧
    (explainPath c1Graph ["A", "X", "B"]).length ≤
      ((pathSteps ["A", "X", "B"]).filter
        (fun s => (getEdgeData c1Graph s.1 s.2).isSome)).length :=
  ⟨(claim_C10 c1Graph ["A", "X", "B"] (by decide)).1 ⟨("A", "X"), by decide, rfl⟩,
   (claim_C10 c1Graph ["A", "B"] (by decide)).2.1 (by decide),
   (claim_C10 c1Graph ["A", "X", "B"] (by decide)).2.2⟩

/-- Model of `add_node` never touches the edge list. -/
theorem addNode_edges (g : DiGraph) (n : String) (attrs : Attrs) :
    (addNode g n attrs).edges = g.edges := by
  unfold addNode; split <;> rfl

/-- An absent edge is absent from the edge-key list. -/
theorem getEdgeData_none_not_mem (g : DiGraph) (u v : String)
    (h : getEdgeData g u v = none) : (u, v) ∉ g.edges.map Prod.fst := by
  intro hmem
  rcases List.mem_map.mp hmem with ⟨e, he, hfst⟩
  have hfind : g.edges.find? (fun e => e.1.1 == u && e.1.2 == v) = none := by
    simpa [getEdgeData] using h
  have := List.find?_eq_none.mp hfind e he
  apply this
  rw [hfst]
  simp

/-- Edge lookup only reads the edge list. -/
theorem getEdgeData_congr (g g' : DiGraph) (u v : String) (h : g.edges = g'.edges) :
    getEdgeData g u v = getEdgeData g' u v := by
  simp [getEdgeData, h]

/-- Model of `add_edge` preserves uniqueness of the ordered-pair edge keys: an
existing pair is updated in place, a new pair is appended exactly once. -/
theorem addEdge_keys_nodup (g : DiGraph) (u v : String) (attrs : Attrs)
    (h : (g.edges.map Prod.fst).Nodup) :
    ((addEdge g u v attrs).edges.map Prod.fst).Nodup := by
  have hmap : ∀ l : List ((String × String) × Attrs), (l.map Prod.fst).Nodup →
      ((l.map (fun e => if e.1.1 == u && e.1.2 == v then (e.1, attrsUpdate e.2 attrs) else e)).map
        Prod.fst).Nodup := by
    intro l hl
    rw [List.map_map]
    have hfst : (Prod.fst ∘ fun e : (String × String) × Attrs =>
        if e.1.1 == u && e.1.2 == v then (e.1, attrsUpdate e.2 attrs) else e) = Prod.fst := by
      funext e
      by_cases hc : e.1.1 = u ∧ e.1.2 = v <;> simp [hc]
    rwa [hfst]
  have happ : ∀ gx : DiGraph, gx.edges = g.edges → ¬(getEdgeData gx u v).isSome = true →
      ((gx.edges ++ [((u, v), attrs)]).map Prod.fst).Nodup := by
    intro gx hx hn
    rw [hx, List.map_append]
    refine List.Nodup.append h (by simp) ?_
    intro x hx1 hx2
    simp only [List.map_cons, List.map_nil, List.mem_singleton] at hx2
    subst hx2
    refine getEdgeData_none_not_mem g u v ?_ hx1
    rw [← Option.not_isSome_iff_eq_none]
    rw [getEdgeData_congr gx g u v hx] at hn
    simpa using hn
  simp only [addEdge]
  split_ifs <;> dsimp only <;> rename_i hc
  all_goals first
    | (apply hmap; simpa [addNode_edges] using h)
    | (exact happ _ (by simp [addNode_edges]) hc)

/-- Fold preservation of an invariant. -/
theorem foldlPreserve {α γ : Type _} (P : γ → Prop) (step : γ → α → γ)
    (hstep : ∀ g a, P g → P (step g a)) :
    ∀ (l : List α) (g : γ), P g → P (l.foldl step g) := by
  intro l
  induction l with
  | nil => intro g hg; simpa using hg
  | cons x xs ih => intro g hg; simpa using ih (step g x) (hstep g x hg)

/-- The graph `build_graph` produces has at most one edge per ordered node
pair (edge keys are pairwise distinct). -/
theorem buildGraph_keys_nodup (assets : List Asset) (rules : List FirewallRule)
    (policies : List IamPolicy) :
    ((buildGraphFrom assets rules policies).edges.map Prod.fst).Nodup := by
  unfold buildGraphFrom
  refine foldlPreserve (fun g : DiGraph => (g.edges.map Prod.fst).Nodup) _
    (fun g p hp => ?_) policies _
    (foldlPreserve (fun g : DiGraph => (g.edges.map Prod.fst).Nodup) _
      (fun g r hr => ?_) rules _
      (foldlPreserve (fun g : DiGraph => (g.edges.map Prod.fst).Nodup) _
        (fun g a ha => ?_) assets _ (by simp)))
  · split
    · split
      · exact addEdge_keys_nodup _ _ _ _ hp
      · exact hp
    · exact hp
  · split
    · split
      · exact addEdge_keys_nodup _ _ _ _ hr
      · exact hr
    · exact hr
  · simpa [addNode_edges] using ha

/-- Model of `_is_path_valid` characterised over the steps of a path: valid iff every
consecutive pair has its (single) edge and, when that edge is `iam`-typed,
its condition is satisfied by the context. -/
theorem isPathValid_iff (g : DiGraph) (ctx : List (String × Value)) :
    ∀ path : List String,
      (isPathValid g ctx path = true ↔
        ∀ s ∈ pathSteps path, ∃ ed,
          getEdgeData g s.1 s.2 = some ed ∧
          (edgeTypeIs ed "iam" = true → isSatisfied ctx (edgeCondition ed) = true)) := by
  intro path
  induction path with
  | nil => simp [isPathValid, pathSteps]
  | cons a tail ih =>
    rcases tail with _ | ⟨b, rest⟩
    · simp [isPathValid, pathSteps]
    · cases hed : getEdgeData g a b with
      | none =>
        rw [show isPathValid g ctx (a :: b :: rest) = false by simp [isPathValid, hed]]
        simp only [Bool.false_eq_true, false_iff]
        intro hall
        rcases hall (a, b) (by simp [pathSteps]) with ⟨ed, hed2, _⟩
        rw [hed] at hed2
        exact Option.noConfusion hed2
      | some ed =>
        rw [show isPathValid g ctx (a :: b :: rest) =
          ((if edgeTypeIs ed "iam" then isSatisfied ctx (edgeCondition ed) else true)
            && isPathValid g ctx (b :: rest)) by simp [isPathValid, hed]]
        rw [Bool.and_eq_true, ih]
        constructor
        · rintro ⟨hstep, hall⟩ s hs
          rcases List.mem_cons.mp (by simpa [pathSteps] using hs) with heq | hmem
          · subst heq
            refine ⟨ed, hed, fun hiam => ?_⟩
            rw [hiam] at hstep
            simpa using hstep
          · exact hall s hmem
        · intro hall
          constructor
          · rcases hall (a, b) (by simp [pathSteps]) with ⟨ed', hed', himp⟩
            rw [hed] at hed'
            injection hed' with he
            subst he
            cases hiam : edgeTypeIs ed "iam"
            · simp [hiam]
            · simpa [hiam] using himp hiam
          · exact fun s hs => hall s (by simp [pathSteps, hs])

/-- C1 counterexample: the build inputs contain both a network allow rule and
an IAM policy between the same ordered pair `(A, B)`; the claim then demands
the step be valid (a Network edge always satisfies).  But `build_graph` uses
a `DiGraph`, so the IAM `add_edge` merged into the earlier network edge
(exactly one edge remains, now `iam`-typed), and under a context that fails
the IAM condition the step — hence the path — is invalid. -/
theorem claim_C1_counterexample :
    isPathValid c1Graph c1CtxBad ["A", "B"] = false ∧
    (c1Graph.edges.filter (fun e => e.1.1 == "A" && e.1.2 == "B")).length = 1 ∧
    edgeTypeIs ((getEdgeData c1Graph "A" "B").getD []) "iam" = true := by decide

/-- C1 amended: edges between the same ordered pair are merged into a single
edge (the built graph has pairwise-distinct edge keys, the later IAM
addition overwriting the network payload), and a path is valid iff every
consecutive pair's single edge exists and — when `iam`-typed — has its
condition satisfied by the execution context. -/
theorem claim_C1_amended (assets : List Asset) (rules : List FirewallRule)
    (policies : List IamPolicy) (ctx : List (String × Value)) (path : List String) :
    ((buildGraphFrom assets rules policies).edges.map Prod.fst).Nodup ∧
    (isPathValid (buildGraphFrom assets rules policies) ctx path = true ↔
      ∀ s ∈ pathSteps path, ∃ ed,
        getEdgeData (buildGraphFrom assets rules policies) s.1 s.2 = some ed ∧
        (edgeTypeIs ed "iam" = true →
          isSatisfied ctx (edgeCondition ed) = true)) :=
  ⟨buildGraph_keys_nodup assets rules policies, isPathValid_iff _ ctx path⟩

/-- C1 witness: the amended statement instantiated at the concrete build
inputs, giving single-edge keys and a valid path under the matching
context. -/
theorem claim_C1_witness :
    ((buildGraphFrom c1Assets c1Rules c1Policies).edges.map Prod.fst).Nodup ∧
    isPathValid (buildGraphFrom c1Assets c1Rules c1Policies)
      [("source_ip", .str "10.0.0.1")] ["A", "B"] = true :=
  ⟨(claim_C1_amended c1Assets c1Rules c1Policies [] []).1,
   ((claim_C1_amended c1Assets c1Rules c1Policies
      [("source_ip", .str "10.0.0.1")] ["A", "B"]).2).mpr (by
        intro s hs
        rcases (by simpa [pathSteps] using hs : s = ("A", "B")) with rfl
        exact ⟨[("type", .str "iam"), ("rule_name", .str "r1"), ("protocol", .str "any"),
          ("port", .str "any"), ("action", .str ""),
          ("condition", .dict [("StringEquals:source_ip", .str "10.0.0.1")]),
          ("policy_name", .str "default")], by rfl, fun _ => by decide⟩)⟩

/-- A lookup miss followed by appending the key makes the next lookup hit the
appended value. -/
theorem cacheLookup_append (c : List ((String × String) × List (List String)))
    (k : String × String) (v : List (List String)) (h : cacheLookup c k = none) :
    cacheLookup (c ++ [(k, v)]) k = some v := by
  induction c with
  | nil => simp [cacheLookup, List.find?]
  | cons hd tl ih =>
    by_cases hc : (hd.1.1 == k.1 && hd.1.2 == k.2) = true
    · simp [cacheLookup, List.find?, hc] at h
    · have h' : cacheLookup tl k = none := by
        simpa [cacheLookup, List.find?, hc, Bool.not_eq_true] using h
      simpa [cacheLookup, List.find?, hc, Bool.not_eq_true] using ih h'

/-- A cache hit comes from an entry whose key is the looked-up pair. -/
theorem cacheLookup_some_mem (c : List ((String × String) × List (List String)))
    (k : String × String) (v : List (List String)) (h : cacheLookup c k = some v) :
    ∃ kv ∈ c, kv.1 = k := by
  unfold cacheLookup at h
  rcases hf : c.find? (fun kv => kv.1.1 == k.1 && kv.1.2 == k.2) with _ | kv
  · rw [hf] at h; simp at h
  · have hmem := List.mem_of_find?_eq_some hf
    have hp := List.find?_some hf
    simp only [Bool.and_eq_true, beq_iff_eq] at hp
    refine ⟨kv, hmem, ?_⟩
    have : (kv.1.1, kv.1.2) = (k.1, k.2) := by rw [hp.1, hp.2]
    simpa using this

/-- C8: with caching enabled, a successful call is idempotent — the second
call with the same `(source, target)` returns the identical ordered path
list and leaves the analyzer state (path cache and both metrics counters,
`total_paths_found` and `paths_pruned`) completely unchanged, because it is
served from the cache entry the first call populated (or hit). -/
theorem claim_C8 (g : DiGraph) (ctx : List (String × Value)) (maxDepth : Nat)
    (source target : String) (st0 st1 : AnalyzerState) (paths : List (List String))
    (h : findAttackPaths g ctx maxDepth source target true st0 = (.ok paths, st1)) :
    findAttackPaths g ctx maxDepth source target true st1 = (.ok paths, st1) := by
  rcases hcl : cacheLookup st0.pathCache (source, target) with _ | cached
  · -- the first call was a cache miss and computed the result
    simp only [findAttackPaths, hcl, if_true] at h
    by_cases hs : hasNode g source = false
    · simp [hs] at h
    · by_cases ht : hasNode g target = false
      · simp [hs, ht] at h
      · rw [if_neg hs, if_neg ht] at h
        simp only [Prod.mk.injEq, Except.ok.injEq] at h
        obtain ⟨hp, hst⟩ := h
        simp only [findAttackPaths, if_true]
        have hlook : cacheLookup st1.pathCache (source, target) = some paths := by
          rw [← hst, ← hp]
          exact cacheLookup_append _ _ _ hcl
        rw [hlook]
  · -- the first call was itself a cache hit: the state went untouched
    simp only [findAttackPaths, hcl, if_true] at h
    simp only [Prod.mk.injEq, Except.ok.injEq] at h
    obtain ⟨hp, hst⟩ := h
    simp only [findAttackPaths, if_true, ← hst, hcl, hp]

/-- C8 witness: a concrete first call (on the merged graph, `A → B`) followed
by the idempotent second call. -/
theorem claim_C8_witness :
    findAttackPaths c1Graph [("source_ip", .str "10.0.0.1")] 5 "A" "B" true
      (findAttackPaths c1Graph [("source_ip", .str "10.0.0.1")] 5 "A" "B" true
        ⟨[], ⟨0, 0⟩⟩).2 =
      (.ok [["A", "B"]],
       (findAttackPaths c1Graph [("source_ip", .str "10.0.0.1")] 5 "A" "B" true
        ⟨[], ⟨0, 0⟩⟩).2) :=
  claim_C8 c1Graph [("source_ip", .str "10.0.0.1")] 5 "A" "B" ⟨[], ⟨0, 0⟩⟩ _ _ (by rfl)

/-- C9: `find_attack_paths` fails with `NodeNotFound` naming the source when
the source is absent, independently fails naming the target when the target
is absent, both before any path enumeration (the analyzer state — cache and
metrics — is returned untouched); when both endpoints exist the call
succeeds and never raises this error.  The well-formedness hypothesis says
every cached key's endpoints exist in the graph, which holds for every
reachable analyzer state because entries are only cached after the check. -/
theorem claim_C9 (g : DiGraph) (ctx : List (String × Value)) (maxDepth : Nat)
    (source target : String) (useCache : Bool) (st : AnalyzerState)
    (hwf : ∀ kv ∈ st.pathCache, hasNode g kv.1.1 = true ∧ hasNode g kv.1.2 = true) :
    (hasNode g source = false →
      findAttackPaths g ctx maxDepth source target useCache st =
        (.error (.nodeNotFound source), st)) ∧
    (hasNode g source = true → hasNode g target = false →
      findAttackPaths g ctx maxDepth source target useCache st =
        (.error (.nodeNotFound target), st)) ∧
    (hasNode g source = true → hasNode g target = true →
      ∃ ps, (findAttackPaths g ctx maxDepth source target useCache st).1 = .ok ps) := by
  have hnone : (hasNode g source = false ∨ hasNode g target = false) →
      (if useCache then cacheLookup st.pathCache (source, target) else none) = none := by
    intro hbad
    cases useCache with
    | false => simp
    | true =>
      simp only [if_true]
      rcases hc : cacheLookup st.pathCache (source, target) with _ | v
      · rfl
      · exfalso
        rcases cacheLookup_some_mem _ _ _ hc with ⟨kv, hmem, hk⟩
        have := hwf kv hmem
        rw [hk] at this
        rcases hbad with hb | hb <;> simp [hb] at this
  refine ⟨fun hs => ?_, fun hs ht => ?_, fun hs ht => ?_⟩
  · simp only [findAttackPaths, hnone (Or.inl hs), if_pos hs]
  · have hs' : ¬hasNode g source = false := by simp [hs]
    simp only [findAttackPaths, hnone (Or.inr ht), if_neg hs', if_pos ht]
  · have hs' : ¬hasNode g source = false := by simp [hs]
    have ht' : ¬hasNode g target = false := by simp [ht]
    rcases hc : (if useCache then cacheLookup st.pathCache (source, target) else none)
      with _ | cached
    · simp only [findAttackPaths, hc, if_neg hs', if_neg ht']
      exact ⟨_, rfl⟩
    · exact ⟨cached, by simp only [findAttackPaths, hc]⟩

/-- C9 witness: on the merged graph (nodes `A`, `B`), a missing source `Z`, a
missing target `Z`, and the successful present-present call. -/
theorem claim_C9_witness :
    findAttackPaths c1Graph [] 5 "Z" "B" true ⟨[], ⟨0, 0⟩⟩ =
      (.error (.nodeNotFound "Z"), ⟨[], ⟨0, 0⟩⟩) ∧
    findAttackPaths c1Graph [] 5 "A" "Z" true ⟨[], ⟨0, 0⟩⟩ =
      (.error (.nodeNotFound "Z"), ⟨[], ⟨0, 0⟩⟩) ∧
    ∃ ps, (findAttackPaths c1Graph [] 5 "A" "B" true ⟨[], ⟨0, 0⟩⟩).1 = .ok ps :=
  ⟨(claim_C9 c1Graph [] 5 "Z" "B" true ⟨[], ⟨0, 0⟩⟩ (by simp)).1 (by decide),
   (claim_C9 c1Graph [] 5 "A" "Z" true ⟨[], ⟨0, 0⟩⟩ (by simp)).2.1 (by decide) (by decide),
   (claim_C9 c1Graph [] 5 "A" "B" true ⟨[], ⟨0, 0⟩⟩ (by simp)).2.2 (by decide) (by decide)⟩

/-- C3: `verify_path_exploitability` always returns a structured
`ProofResult` (it is a total function of the inputs and the external solver
verdict): a `sat` verdict maps to `Exploitable` carrying the satisfying
model (whenever the model is non-empty — z3's empty model is falsy and
stored as `None`), the elapsed solve time and the constraint names; `unsat`
maps to `Blocked` with no model; an indeterminate/timeout verdict maps to
`Unknown`; and an internal exception during constraint compilation (e.g. a
malformed numeric policy value) is caught and converted to an `Unknown`
result whose explanation carries the error message. -/
theorem claim_C3 (check : List ZExpr → SolverOutcome) (path : List String)
    (policies : List ZPolicy) (ctx : List (String × Value)) (elapsedMs : ℚ) :
    (∀ e, addPolicyConstraints policies = .error e →
      (verifyPathExploitability check path policies ctx elapsedMs).result = .unknown ∧
      (verifyPathExploitability check path policies ctx elapsedMs).explanation =
        "Verification error: " ++ e ∧
      (verifyPathExploitability check path policies ctx elapsedMs).model = none) ∧
    (∀ named asserts, addPolicyConstraints policies = .ok (named, asserts) →
      (∀ m, check (asserts ++ contextAsserts ctx) = .sat m →
        (verifyPathExploitability check path policies ctx elapsedMs).result = .exploitable ∧
        (verifyPathExploitability check path policies ctx elapsedMs).solverTimeMs = elapsedMs ∧
        (verifyPathExploitability check path policies ctx elapsedMs).constraintsUsed =
          some (named.map (fun nc => nc.1)) ∧
        (verifyPathExploitability check path policies ctx elapsedMs).constraintsSatisfied =
          some true ∧
        (m.isEmpty = false →
          (verifyPathExploitability check path policies ctx elapsedMs).model = some m)) ∧
      (check (asserts ++ contextAsserts ctx) = .unsat →
        (verifyPathExploitability check path policies ctx elapsedMs).result = .blocked ∧
        (verifyPathExploitability check path policies ctx elapsedMs).model = none ∧
        (verifyPathExploitability check path policies ctx elapsedMs).constraintsSatisfied =
          some false ∧
        (verifyPathExploitability check path policies ctx elapsedMs).solverTimeMs = elapsedMs) ∧
      (check (asserts ++ contextAsserts ctx) = .unknown →
        (verifyPathExploitability check path policies ctx elapsedMs).result = .unknown ∧
        (verifyPathExploitability check path policies ctx elapsedMs).model = none)) := by
  refine ⟨fun e he => ?_, fun named asserts hok =>
    ⟨fun m hm => ?_, fun hu => ?_, fun hu => ?_⟩⟩
  · simp [verifyPathExploitability, he]
  · refine ⟨?_, ?_, ?_, ?_, fun hne => ?_⟩
    · simp [verifyPathExploitability, hok, hm]
    · simp [verifyPathExploitability, hok, hm]
    · simp [verifyPathExploitability, hok, hm]
    · simp [verifyPathExploitability, hok, hm]
    · simp [verifyPathExploitability, hok, hm, hne]
  · simp [verifyPathExploitability, hok, hu]
  · simp [verifyPathExploitability, hok, hu]

/-- C3 witness: concrete verdict mappings — a malformed numeric policy is
caught into `Unknown` with its message, and an `unsat` verdict maps to
`Blocked` with no model. -/
theorem claim_C3_witness :
    (verifyPathExploitability (fun _ => .unsat) ["a", "b"]
      [⟨[⟨"NumericGreater", "port", ["abc"]⟩], some "Allow"⟩] [] 3).result = .unknown ∧
    (verifyPathExploitability (fun _ => .unsat) ["a", "b"]
      [⟨[⟨"NumericGreater", "port", ["abc"]⟩], some "Allow"⟩] [] 3).explanation =
      "Verification error: invalid literal for int() with base 10: abc" ∧
    (verifyPathExploitability (fun _ => .unsat) ["a", "b"] [] [] 3).result = .blocked ∧
    (verifyPathExploitability (fun _ => .unsat) ["a", "b"] [] [] 3).model = none :=
  ⟨((claim_C3 (fun _ => .unsat) ["a", "b"]
      [⟨[⟨"NumericGreater", "port", ["abc"]⟩], some "Allow"⟩] [] 3).1
      "invalid literal for int() with base 10: abc" (by rfl)).1,
   ((claim_C3 (fun _ => .unsat) ["a", "b"]
      [⟨[⟨"NumericGreater", "port", ["abc"]⟩], some "Allow"⟩] [] 3).1
      "invalid literal for int() with base 10: abc" (by rfl)).2.1,
   (((claim_C3 (fun _ => .unsat) ["a", "b"] [] [] 3).2 [] [] (by rfl)).2.1 (by rfl)).1,
   (((claim_C3 (fun _ => .unsat) ["a", "b"] [] [] 3).2 [] [] (by rfl)).2.1 (by rfl)).2.1⟩

end AttackPath
